import Mathlib

/-!
Shallow embedding of the cli-clipper core: the KeyRotation credential
rotator, the GitHubAdapter run-correlation lookup (getRunStatus), the
pollWorkflowStatus loop, and the ClipperService.process orchestration,
translated from the TypeScript source.  JavaScript `undefined` is
modelled as `Option.none`, a thrown error as `Except.error`.
-/

/-- JavaScript `String.prototype.split('\n')` on a list of characters:
every occurrence of the separator starts a new segment, and the result is
never empty (splitting the empty string yields one empty segment). -/
def splitLinesL : List Char → List (List Char)
  | [] => [[]]
  | c :: cs =>
    match splitLinesL cs with
    | [] => [[c]]
    | l :: ls => if c = '\n' then [] :: l :: ls else (c :: l) :: ls

/-- JavaScript `String.prototype.trim` on a list of characters (the
whitespace set is restricted to space, tab, carriage return and newline,
which covers every file content considered here). -/
def trimL (l : List Char) : List Char :=
  ((l.dropWhile Char.isWhitespace).reverse.dropWhile Char.isWhitespace).reverse

/-- The filter of `KeyRotation.loadKeys`: keep a trimmed line when it is
non-empty and does not start with `#`. -/
def keepLine : List Char → Bool
  | [] => false
  | c :: _ => c != '#'

/-- Key-file parsing from `KeyRotation.loadKeys`:
`content.split('\n').map(trim).filter(l => l.length > 0 && !l.startsWith('#'))`. -/
def parseKeyFile (content : String) : List String :=
  (((splitLinesL content.data).map trimL).filter keepLine).map (fun l => String.mk l)

/-- JavaScript `String.prototype.includes`: substring containment. -/
def strContains (s sub : String) : Bool :=
  (List.range (s.data.length + 1)).any (fun i => sub.data.isPrefixOf (s.data.drop i))

/-- The two services of `KeyRotation` (`type ServiceName = 'deepgram' | 'gemini'`). -/
inductive ServiceName
  | deepgram
  | gemini
deriving DecidableEq, Repr

/-- The backing credential sources for a service: the contents of its key
file in `config/keys/` when the file exists, and the value of its fallback
environment variable when it is set. -/
structure KeySources where
  keyFile : ServiceName → Option String
  envVar : ServiceName → Option String

/-- The mutable state of a `KeyRotation` instance: the per-service
rotation index map `currentIndex` and the per-service `keysCache`.
An absent map entry is `none`. -/
structure KeyRotationState where
  currentIndex : ServiceName → Option Nat
  keysCache : ServiceName → Option (List String)

/-- A `KeyRotation` instance as constructed: both maps empty. -/
def freshKeyRotation : KeyRotationState :=
  { currentIndex := fun _ => none, keysCache := fun _ => none }

/-- Point update of a per-service map. -/
def updMap {α : Type} (f : ServiceName → Option α) (s : ServiceName) (v : Option α) :
    ServiceName → Option α :=
  fun t => if t = s then v else f t

/-- File-derived keys of `loadKeys`: parse the key file when it exists,
otherwise the empty list. -/
def fileKeys (src : KeySources) (s : ServiceName) : List String :=
  match src.keyFile s with
  | some content => parseKeyFile content
  | none => []

/-- The environment fallback of `loadKeys` under JavaScript truthiness:
an unset variable and the empty string are both falsy. -/
def envKey (src : KeySources) (s : ServiceName) : Option String :=
  match src.envVar s with
  | some v => if v = "" then none else some v
  | none => none

/-- The keys `loadKeys` computes on a cache miss: file keys first, then a
single-key pool synthesized from the environment variable when the file
yielded none. -/
def sourceKeys (src : KeySources) (s : ServiceName) : List String :=
  let keys := fileKeys src s
  if keys = [] then
    match envKey src s with
    | some v => [v]
    | none => keys
  else keys

/-- `KeyRotation.loadKeys`: return the cached pool when present, otherwise
read the backing sources and populate the cache (also when the result is
empty). -/
def loadKeys (src : KeySources) (s : ServiceName) (st : KeyRotationState) :
    List String × KeyRotationState :=
  match st.keysCache s with
  | some ks => (ks, st)
  | none =>
    let keys := sourceKeys src s
    (keys, { st with keysCache := updMap st.keysCache s (some keys) })

/-- `KeyRotation.getNextKey`: load the pool, throw when it is empty,
otherwise return the key at the current index (JavaScript indexing: out of
bounds gives `undefined`, modelled as `none`) and advance the index modulo
the pool size. -/
def getNextKey (src : KeySources) (s : ServiceName) (st : KeyRotationState) :
    Except Unit (Option String) × KeyRotationState :=
  let (keys, st1) := loadKeys src s st
  if keys.length = 0 then (Except.error (), st1)
  else
    let idx := (st1.currentIndex s).getD 0
    let st2 := { st1 with currentIndex := updMap st1.currentIndex s (some ((idx + 1) % keys.length)) }
    (Except.ok (keys.get? idx), st2)

/-- `KeyRotation.getAllKeys`. -/
def getAllKeys (src : KeySources) (s : ServiceName) (st : KeyRotationState) :
    List String × KeyRotationState :=
  loadKeys src s st

/-- `KeyRotation.getKeyCount`. -/
def getKeyCount (src : KeySources) (s : ServiceName) (st : KeyRotationState) :
    Nat × KeyRotationState :=
  let (ks, st1) := loadKeys src s st
  (ks.length, st1)

/-- `KeyRotation.hasKeys`. -/
def hasKeys (src : KeySources) (s : ServiceName) (st : KeyRotationState) :
    Bool × KeyRotationState :=
  let (ks, st1) := loadKeys src s st
  (decide (0 < ks.length), st1)

/-- `KeyRotation.clearCache`: drop one service's cached pool, or all of
them when no service is given.  The rotation index is not touched. -/
def clearCache (os : Option ServiceName) (st : KeyRotationState) : KeyRotationState :=
  match os with
  | some s => { st with keysCache := updMap st.keysCache s none }
  | none => { st with keysCache := fun _ => none }

/-- `KeyRotation.resetRotation`: drop one service's rotation index. -/
def resetRotation (s : ServiceName) (st : KeyRotationState) : KeyRotationState :=
  { st with currentIndex := updMap st.currentIndex s none }

/-- The state after `k` successive `getNextKey` calls for service `s`. -/
def stateAfter (src : KeySources) (s : ServiceName) (st : KeyRotationState) : Nat → KeyRotationState
  | 0 => st
  | k + 1 => (getNextKey src s (stateAfter src s st k)).2

/-- The value returned by the `(k+1)`-th `getNextKey` call for service `s`
starting from state `st`. -/
def nthNext (src : KeySources) (s : ServiceName) (st : KeyRotationState) (k : Nat) :
    Except Unit (Option String) :=
  (getNextKey src s (stateAfter src s st k)).1

/-- Workflow run status values.  The GitHubAdapter declares
`'queued' | 'in_progress' | 'completed'` and the shared types module adds
`'failed'`; the polling loop compares against both `'completed'` and
`'failed'`, so the embedding carries all four string values. -/
inductive WStatus
  | queued
  | in_progress
  | completed
  | failed
deriving DecidableEq, Repr

/-- Workflow run conclusion values (`'success' | 'failure' | 'neutral'`,
with JavaScript `null`/absence as `Option.none` at use sites). -/
inductive WConclusion
  | success
  | failure
  | neutral
deriving DecidableEq, Repr

/-- A remote workflow run as read from the listing endpoint: the fields
`getRunStatus` consumes.  `created_at` is a millisecond timestamp. -/
structure RemoteRun where
  id : Nat
  name : String
  event : String
  created_at : Int
  status : WStatus
  conclusion : Option WConclusion
  html_url : String
deriving DecidableEq, Repr

/-- The `WorkflowRunStatus` record built by `GitHubAdapter.getRunStatus`:
`{ id, status, conclusion, url }`. -/
structure WorkflowRunStatus where
  id : Nat
  status : WStatus
  conclusion : Option WConclusion
  url : String
deriving DecidableEq, Repr

/-- The predicate of the `find` call in `GitHubAdapter.getRunStatus`:
the run name contains the worker id, or the run is a `workflow_dispatch`
event created within the last 300000 ms of the current time `now`. -/
def matchesRun (workerId : String) (now : Int) (r : RemoteRun) : Bool :=
  strContains r.name workerId ||
    (r.event == "workflow_dispatch" && decide (now - 300000 < r.created_at))

/-- The status record `getRunStatus` builds from a matched run. -/
def runSnapshot (r : RemoteRun) : WorkflowRunStatus :=
  { id := r.id, status := r.status, conclusion := r.conclusion, url := r.html_url }

/-- `GitHubAdapter.getRunStatus`: scan the listed runs in order with
`find` and return the first run matching the predicate, or `null` when
none matches.  The listing page is the `runs` argument and the wall clock
is the `now` argument. -/
def getRunStatus (workerId : String) (runs : List RemoteRun) (now : Int) :
    Option WorkflowRunStatus :=
  (runs.find? (matchesRun workerId now)).map runSnapshot

/-- `GitHubAdapter.getWorkflowUrl`. -/
def getWorkflowUrl (owner repo : String) : String :=
  "https://github.com/" ++ owner ++ "/" ++ repo ++ "/actions"

/-- The value space of results flowing out of `pollWorkflowStatus` and
into `ClipperService.process` (the shared `WorkflowStatus` shape):
a duck-typed record whose absent fields are `none`.  A run snapshot
populates `id`, `status`, `conclusion` and `url`; the timeout return of
the polling loop populates only `status` and `checkUrl`. -/
structure WorkflowStatus where
  id : Option Nat
  status : WStatus
  conclusion : Option WConclusion
  url : Option String
  downloadUrl : Option String
  checkUrl : Option String
  error : Option String
deriving DecidableEq, Repr

/-- Injection of an adapter run snapshot into the poll result shape. -/
def snapToResult (s : WorkflowRunStatus) : WorkflowStatus :=
  { id := some s.id, status := s.status, conclusion := s.conclusion,
    url := some s.url, downloadUrl := none, checkUrl := none, error := none }

/-- The object returned by `pollWorkflowStatus` when the timeout budget is
exhausted: `{ status: 'in_progress', checkUrl: gitHub.getWorkflowUrl() }`. -/
def timeoutResult (checkUrl : String) : WorkflowStatus :=
  { id := none, status := WStatus.in_progress, conclusion := none,
    url := none, downloadUrl := none, checkUrl := some checkUrl, error := none }

/-- The polling loop of `pollWorkflowStatus`.  `fetch i` is the outcome of
the `getRunStatus` call on iteration `i` (a thrown error, `null`, or a
snapshot); each iteration that does not return sleeps `interval` ms, so
iteration `i` starts at elapsed time `i * interval` and the `while` guard
is `i * interval < timeout`.  The fuel argument only bounds the recursion;
with the fuel chosen by `pollWorkflowStatus` it never runs out when
`0 < interval`. -/
def pollAux (fetch : Nat → Except String (Option WorkflowRunStatus))
    (interval timeout : Nat) (checkUrl : String) : Nat → Nat → Except String WorkflowStatus
  | 0, _ => Except.ok (timeoutResult checkUrl)
  | fuel + 1, i =>
    if i * interval < timeout then
      match fetch i with
      | Except.error e => Except.error e
      | Except.ok none => pollAux fetch interval timeout checkUrl fuel (i + 1)
      | Except.ok (some s) =>
        if s.status = WStatus.completed then Except.ok (snapToResult s)
        else if s.status = WStatus.failed then Except.ok (snapToResult s)
        else pollAux fetch interval timeout checkUrl fuel (i + 1)
    else Except.ok (timeoutResult checkUrl)

/-- `pollWorkflowStatus` from `src/adapters/polling.ts`, for a positive
interval (the source defaults are interval 5000 ms, timeout 600000 ms;
with interval 0 the source loop would never terminate). -/
def pollWorkflowStatus (fetch : Nat → Except String (Option WorkflowRunStatus))
    (interval timeout : Nat) (checkUrl : String) : Except String WorkflowStatus :=
  pollAux fetch interval timeout checkUrl (timeout + 1) 0

/-- Calls made on the TelegramAdapter collaborator by
`ClipperService.process`. -/
inductive TgCall
  | sendVideo (downloadUrl : Option String) (workerId : String)
  | sendError (workerId : String) (message : String)
deriving DecidableEq, Repr

/-- The collaborator outcomes a single `ClipperService.process` run can
observe: the dispatch result, the polling result, whether Telegram is
configured (`token && chatId` truthy), and the outcomes of the two
Telegram calls should they be made. -/
structure ProcessEnv where
  trigger : Except String Unit
  pollResult : Except String WorkflowStatus
  telegramConfigured : Bool
  sendVideoOutcome : Except String Unit
  sendErrorOutcome : Except String Unit

/-- JavaScript `result.error || 'Workflow failed'`. -/
def jsOrFailed : Option String → String
  | some s => if s = "" then "Workflow failed" else s
  | none => "Workflow failed"

/-- The `try` block of `ClipperService.process`: trigger the workflow,
then (when watching) poll; on a `completed` result take the success path
(sending the video when Telegram is configured); on a `failed` result
throw `result.error || 'Workflow failed'`; otherwise report still
running.  Errors carry the Telegram calls already made. -/
def processTry (env : ProcessEnv) (watch : Bool) (workerId : String) :
    Except (String × List TgCall) (List TgCall) :=
  match env.trigger with
  | Except.error e => Except.error (e, [])
  | Except.ok _ =>
    if watch then
      match env.pollResult with
      | Except.error e => Except.error (e, [])
      | Except.ok r =>
        if r.status = WStatus.completed then
          if env.telegramConfigured then
            match env.sendVideoOutcome with
            | Except.error e => Except.error (e, [TgCall.sendVideo r.downloadUrl workerId])
            | Except.ok _ => Except.ok [TgCall.sendVideo r.downloadUrl workerId]
          else Except.ok []
        else if r.status = WStatus.failed then
          Except.error (jsOrFailed r.error, [])
        else Except.ok []
    else Except.ok []

/-- `ClipperService.process`: run the `try` block; on a thrown error run
the `catch` block, which sends a Telegram error notification when
configured (itself awaited without a guard, so its own thrown error
escapes the `catch`) and then rethrows the original error.  The result
pairs the outcome with the list of Telegram calls made. -/
def process (env : ProcessEnv) (watch : Bool) (workerId : String) :
    Except String Unit × List TgCall :=
  match processTry env watch workerId with
  | Except.ok calls => (Except.ok (), calls)
  | Except.error (e, calls) =>
    if env.telegramConfigured then
      match env.sendErrorOutcome with
      | Except.error e2 => (Except.error e2, calls ++ [TgCall.sendError workerId e])
      | Except.ok _ => (Except.error e, calls ++ [TgCall.sendError workerId e])
    else (Except.error e, calls)

lemma loadKeys_cached {src : KeySources} {s : ServiceName} {st : KeyRotationState}
    {ks : List String} (h : st.keysCache s = some ks) : loadKeys src s st = (ks, st) := by
  simp [loadKeys, h]

lemma loadKeys_fresh {src : KeySources} {s : ServiceName} {st : KeyRotationState}
    (h : st.keysCache s = none) :
    loadKeys src s st =
      (sourceKeys src s,
        { st with keysCache := updMap st.keysCache s (some (sourceKeys src s)) }) := by
  simp [loadKeys, h]

lemma getNextKey_cached (src : KeySources) {s : ServiceName} {st : KeyRotationState}
    {ks : List String} {j : Nat} (hc : st.keysCache s = some ks) (hne : 0 < ks.length)
    (hj : st.currentIndex s = some j) :
    getNextKey src s st =
      (Except.ok (ks.get? j),
        { st with currentIndex := updMap st.currentIndex s (some ((j + 1) % ks.length)) }) := by
  simp [getNextKey, loadKeys_cached hc, hj, Nat.pos_iff_ne_zero.mp hne]

lemma getNextKey_fresh {src : KeySources} {s : ServiceName} {st : KeyRotationState}
    {ks : List String} (hc : st.keysCache s = none) (hi : st.currentIndex s = none)
    (hks : sourceKeys src s = ks) (hne : 0 < ks.length) :
    getNextKey src s st =
      (Except.ok (ks.get? 0),
        { st with
            keysCache := updMap st.keysCache s (some ks),
            currentIndex := updMap st.currentIndex s (some (1 % ks.length)) }) := by
  simp [getNextKey, loadKeys_fresh hc, hks, hi, Nat.pos_iff_ne_zero.mp hne]

lemma stateAfter_inv {src : KeySources} {s : ServiceName} {st0 : KeyRotationState}
    {ks : List String} (hc : st0.keysCache s = none) (hi : st0.currentIndex s = none)
    (hks : sourceKeys src s = ks) (hne : 0 < ks.length) :
    ∀ k : Nat, (stateAfter src s st0 (k + 1)).keysCache s = some ks ∧
      (stateAfter src s st0 (k + 1)).currentIndex s = some ((k + 1) % ks.length) := by
  intro k
  induction k with
  | zero =>
    simp only [stateAfter, getNextKey_fresh hc hi hks hne]
    constructor
    · simp [updMap]
    · simp [updMap]
  | succ j ih =>
    have hstep := getNextKey_cached src ih.1 hne ih.2
    have hexp : stateAfter src s st0 (j + 1 + 1)
        = (getNextKey src s (stateAfter src s st0 (j + 1))).2 := rfl
    rw [hexp, hstep]
    refine ⟨ih.1, ?_⟩
    simp [updMap, Nat.mod_add_mod]

/-- C4: starting from a fresh rotation cursor over a fixed pool `ks` of
size `n ≥ 1`, the `(i+1)`-th `getNextKey` call returns the pool element at
index `i` for every `i < n` (each key exactly once, in pool order), and
the `(n+1)`-th call returns the same key as the 1st. -/
theorem keyRotation_round_robin (src : KeySources) (s : ServiceName)
    (st0 : KeyRotationState) (ks : List String)
    (hc : st0.keysCache s = none) (hi : st0.currentIndex s = none)
    (hks : sourceKeys src s = ks) (hne : 0 < ks.length) :
    (∀ i, i < ks.length → nthNext src s st0 i = Except.ok (ks.get? i)) ∧
      nthNext src s st0 ks.length = nthNext src s st0 0 := by
  have hfirst : nthNext src s st0 0 = Except.ok (ks.get? 0) := by
    simp only [nthNext, stateAfter, getNextKey_fresh hc hi hks hne]
  have hlater : ∀ j : Nat, nthNext src s st0 (j + 1) = Except.ok (ks.get? ((j + 1) % ks.length)) := by
    intro j
    have hinv := stateAfter_inv hc hi hks hne j
    simp only [nthNext, getNextKey_cached src hinv.1 hne hinv.2]
  constructor
  · intro i hilt
    cases i with
    | zero => exact hfirst
    | succ j =>
      rw [hlater j, Nat.mod_eq_of_lt hilt]
  · cases hn : ks.length with
    | zero => omega
    | succ m =>
      rw [← hn, hfirst]
      have := hlater (ks.length - 1)
      rw [Nat.sub_add_cancel hne, Nat.mod_self] at this
      exact this

/-- Witness for C4 on the concrete three-key pool `k1, k2, k3`: the first
call returns `k1`, the third returns `k3`, and the fourth call returns the
same key as the first. -/
theorem keyRotation_round_robin_witness :
    nthNext ⟨fun _ => some "k1\nk2\nk3", fun _ => none⟩ ServiceName.deepgram
        freshKeyRotation 0 = Except.ok (some "k1") ∧
      nthNext ⟨fun _ => some "k1\nk2\nk3", fun _ => none⟩ ServiceName.deepgram
        freshKeyRotation 2 = Except.ok (some "k3") ∧
      nthNext ⟨fun _ => some "k1\nk2\nk3", fun _ => none⟩ ServiceName.deepgram
        freshKeyRotation 3 =
        nthNext ⟨fun _ => some "k1\nk2\nk3", fun _ => none⟩ ServiceName.deepgram
          freshKeyRotation 0 := by
  have h := keyRotation_round_robin ⟨fun _ => some "k1\nk2\nk3", fun _ => none⟩
    ServiceName.deepgram freshKeyRotation ["k1", "k2", "k3"] rfl rfl (by decide) (by decide)
  refine ⟨?_, ?_, h.2⟩
  · exact h.1 0 (by decide)
  · exact h.1 2 (by decide)

lemma sourceKeys_empty_iff (src : KeySources) (s : ServiceName) :
    sourceKeys src s = [] ↔ (fileKeys src s = [] ∧ envKey src s = none) := by
  unfold sourceKeys
  cases hf : fileKeys src s with
  | nil => cases he : envKey src s <;> simp [hf, he]
  | cons a l => simp [hf]

/-- C6: with a fresh cache for service `s`, `getNextKey` throws the
no-credentials error exactly when the key file is absent or yields no
keys and the environment variable is unset (or empty, which JavaScript
treats as unset); when either source yields a key it returns normally. -/
theorem getNext_no_credentials (src : KeySources) (s : ServiceName) (st : KeyRotationState)
    (hc : st.keysCache s = none) :
    ((fileKeys src s = [] ∧ envKey src s = none) →
      (getNextKey src s st).1 = Except.error ()) ∧
      ((fileKeys src s ≠ [] ∨ envKey src s ≠ none) →
        ∃ o, (getNextKey src s st).1 = Except.ok o) := by
  constructor
  · intro h
    have hsk : sourceKeys src s = [] := (sourceKeys_empty_iff src s).mpr h
    simp [getNextKey, loadKeys_fresh hc, hsk]
  · intro h
    have hsk : sourceKeys src s ≠ [] := by
      intro he
      rcases (sourceKeys_empty_iff src s).mp he with ⟨h1, h2⟩
      rcases h with h | h
      · exact h h1
      · exact h h2
    have hlen : ¬ (sourceKeys src s).length = 0 := by
      simpa [List.length_eq_zero] using hsk
    refine ⟨(sourceKeys src s).get? ((st.currentIndex s).getD 0), ?_⟩
    simp [getNextKey, loadKeys_fresh hc, hlen]

/-- Witness for C6: with file and environment both absent, `getNextKey`
fails; with only the environment variable set, it succeeds. -/
theorem getNext_no_credentials_witness :
    (getNextKey ⟨fun _ => none, fun _ => none⟩ ServiceName.gemini freshKeyRotation).1
        = Except.error () ∧
      ∃ o, (getNextKey ⟨fun _ => none, fun _ => some "envkey"⟩ ServiceName.gemini
        freshKeyRotation).1 = Except.ok o := by
  constructor
  · exact (getNext_no_credentials ⟨fun _ => none, fun _ => none⟩
      ServiceName.gemini freshKeyRotation rfl).1 (by constructor <;> decide)
  · exact (getNext_no_credentials ⟨fun _ => none, fun _ => some "envkey"⟩
      ServiceName.gemini freshKeyRotation rfl).2 (Or.inr (by decide))

/-- C10: when the first load for a service finds no keys, the empty pool
is cached: every later `getNextKey` still throws and `hasKeys` still
answers `false` under any later backing sources (environment variable set
included), until `clearCache` for the service, after which the next
`getNextKey` re-reads the sources and serves their first key. -/
theorem keyRotation_empty_pool_memoized (src0 : KeySources) (s : ServiceName)
    (st0 : KeyRotationState) (hc : st0.keysCache s = none) (hi : st0.currentIndex s = none)
    (hempty : sourceKeys src0 s = []) :
    ((getNextKey src0 s st0).1 = Except.error ()) ∧
      (∀ src2, (getNextKey src2 s (getNextKey src0 s st0).2).1 = Except.error ()) ∧
      (∀ src2, (hasKeys src2 s (getNextKey src0 s st0).2).1 = false) ∧
      (∀ src2 k tl, sourceKeys src2 s = k :: tl →
        (getNextKey src2 s (clearCache (some s) (getNextKey src0 s st0).2)).1
          = Except.ok (some k)) := by
  have hst1 : (getNextKey src0 s st0).2
      = { st0 with keysCache := updMap st0.keysCache s (some []) } := by
    simp [getNextKey, loadKeys_fresh hc, hempty]
  have hrec : ({ st0 with keysCache := updMap st0.keysCache s (some []) } :
      KeyRotationState).keysCache s = some [] := by
    simp [updMap]
  refine ⟨?_, ?_, ?_, ?_⟩
  · simp [getNextKey, loadKeys_fresh hc, hempty]
  · intro src2
    rw [hst1]
    simp [getNextKey, loadKeys_cached hrec]
  · intro src2
    rw [hst1]
    simp [hasKeys, loadKeys_cached hrec]
  · intro src2 k tl hsk
    rw [hst1]
    have hcleared : (clearCache (some s)
        ({ st0 with keysCache := updMap st0.keysCache s (some []) } :
          KeyRotationState)).keysCache s = none := by
      simp [clearCache, updMap]
    have hidx : (clearCache (some s)
        ({ st0 with keysCache := updMap st0.keysCache s (some []) } :
          KeyRotationState)).currentIndex s = none := by
      simpa [clearCache] using hi
    simp [getNextKey, loadKeys_fresh hcleared, hsk, hidx]

/-- Witness for C10: after a first access with no sources, setting the
environment variable does not revive `getNextKey` or `hasKeys`, but after
`clearCache` the variable's key is served. -/
theorem keyRotation_empty_pool_memoized_witness :
    (getNextKey ⟨fun _ => none, fun _ => some "late"⟩ ServiceName.deepgram
        (getNextKey ⟨fun _ => none, fun _ => none⟩ ServiceName.deepgram
          freshKeyRotation).2).1 = Except.error () ∧
      (hasKeys ⟨fun _ => none, fun _ => some "late"⟩ ServiceName.deepgram
        (getNextKey ⟨fun _ => none, fun _ => none⟩ ServiceName.deepgram
          freshKeyRotation).2).1 = false ∧
      (getNextKey ⟨fun _ => none, fun _ => some "late"⟩ ServiceName.deepgram
        (clearCache (some ServiceName.deepgram)
          (getNextKey ⟨fun _ => none, fun _ => none⟩ ServiceName.deepgram
            freshKeyRotation).2)).1 = Except.ok (some "late") := by
  have h := keyRotation_empty_pool_memoized ⟨fun _ => none, fun _ => none⟩
    ServiceName.deepgram freshKeyRotation rfl rfl (by decide)
  exact ⟨h.2.1 ⟨fun _ => none, fun _ => some "late"⟩,
    h.2.2.1 ⟨fun _ => none, fun _ => some "late"⟩,
    h.2.2.2 ⟨fun _ => none, fun _ => some "late"⟩ "late" [] (by decide)⟩

/-- C7 (code bug): the rotation cursor survives `clearCache`, so after a
reload that shrinks the pool the stored cursor can lie outside
`[0, len)` and `getNextKey` returns JavaScript `undefined` (out-of-bounds
index) instead of a pool element: with pool `a, b, c`, two calls leave the
cursor at 2; after `clearCache` and a reload that now yields only `a, b`,
the next call returns `undefined`. -/
theorem getNext_stale_cursor_returns_undefined :
    ((stateAfter ⟨fun _ => some "a\nb\nc", fun _ => none⟩ ServiceName.deepgram
        freshKeyRotation 2).currentIndex ServiceName.deepgram = some 2) ∧
      (sourceKeys ⟨fun _ => some "a\nb", fun _ => none⟩ ServiceName.deepgram).length = 2 ∧
      (getNextKey ⟨fun _ => some "a\nb", fun _ => none⟩ ServiceName.deepgram
        (clearCache (some ServiceName.deepgram)
          (stateAfter ⟨fun _ => some "a\nb\nc", fun _ => none⟩ ServiceName.deepgram
            freshKeyRotation 2))).1 = Except.ok none := by
  exact ⟨rfl, rfl, rfl⟩

lemma pollAux_skip (fetch : Nat → Except String (Option WorkflowRunStatus))
    (interval timeout : Nat) (url : String) :
    ∀ (d i fuel : Nat), (i + d) * interval < timeout →
      (∀ j, j < d → fetch (i + j) = Except.ok none) →
      pollAux fetch interval timeout url (fuel + d) i
        = pollAux fetch interval timeout url fuel (i + d) := by
  intro d
  induction d with
  | zero => intro i fuel _ _; rfl
  | succ d ih =>
    intro i fuel hlt hnone
    have hguard : i * interval < timeout :=
      lt_of_le_of_lt (Nat.mul_le_mul_right interval (by omega)) hlt
    have h0 : fetch i = Except.ok none := by
      simpa using hnone 0 (by omega)
    have hstep : pollAux fetch interval timeout url (fuel + (d + 1)) i
        = pollAux fetch interval timeout url (fuel + d) (i + 1) := by
      show pollAux fetch interval timeout url ((fuel + d) + 1) i = _
      simp [pollAux, hguard, h0]
    rw [hstep]
    have hlt' : (i + 1 + d) * interval < timeout := by
      rw [show i + 1 + d = i + (d + 1) by omega]
      exact hlt
    have hnone' : ∀ j, j < d → fetch (i + 1 + j) = Except.ok none := by
      intro j hj
      rw [show i + 1 + j = i + (j + 1) by omega]
      exact hnone (j + 1) (by omega)
    rw [ih (i + 1) fuel hlt' hnone']
    congr 1
    omega

/-- C1 (as amended): a status-fetch error raised on an iteration that
starts before the timeout budget is exhausted is not absorbed: it
propagates out of `pollWorkflowStatus` and ends the polling run with that
error. -/
theorem poll_transient_error_propagates
    (fetch : Nat → Except String (Option WorkflowRunStatus))
    (interval timeout : Nat) (url : String) (i : Nat) (e : String)
    (hpos : 0 < interval) (hi : i * interval < timeout)
    (hprev : ∀ j, j < i → fetch j = Except.ok none)
    (herr : fetch i = Except.error e) :
    pollWorkflowStatus fetch interval timeout url = Except.error e := by
  have hile : i ≤ timeout := by
    have h1 : i ≤ i * interval := Nat.le_mul_of_pos_right i hpos
    omega
  have hfuel : timeout + 1 = (timeout + 1 - i) + i := by omega
  unfold pollWorkflowStatus
  rw [hfuel, pollAux_skip fetch interval timeout url i 0 (timeout + 1 - i)
    (by simpa using hi) (by intro j hj; simpa using hprev j hj)]
  rw [show timeout + 1 - i = (timeout - i) + 1 by omega]
  simp [pollAux, hi, herr]

/-- Witness for C1 (amended): a fetch that reports no run on iteration 0
and throws on iteration 1, well before the 600 ms budget at a 5 ms
interval, makes the poll abort with that error. -/
theorem poll_transient_error_propagates_witness :
    0 < 5 ∧ 1 * 5 < 600 ∧
      pollWorkflowStatus (fun n => if n = 0 then Except.ok none else Except.error "netdown")
        5 600 "u" = Except.error "netdown" := by
  refine ⟨by decide, by decide, ?_⟩
  exact poll_transient_error_propagates
    (fun n => if n = 0 then Except.ok none else Except.error "netdown") 5 600 "u" 1 "netdown"
    (by decide) (by decide)
    (by intro j hj; have hj0 : j = 0 := by omega
        subst hj0; rfl)
    rfl

/-- C1 counterexample: the claim says a transient fetch error occurring
before the timeout budget is exhausted is absorbed and the loop continues;
here the fetch throws on the very first iteration (elapsed `0 * 5 < 600`)
and the poll aborts, returning that error. -/
theorem poll_transient_error_aborts_cex :
    (0 * 5 < 600) ∧
      pollWorkflowStatus (fun _ => Except.error "network error") 5 600 "u"
        = Except.error "network error" :=
  ⟨by decide, rfl⟩

lemma pollAux_ok_shape (fetch : Nat → Except String (Option WorkflowRunStatus))
    (interval timeout : Nat) (url : String) :
    ∀ (fuel i : Nat) (r : WorkflowStatus),
      pollAux fetch interval timeout url fuel i = Except.ok r →
      r = timeoutResult url ∨ r.status = WStatus.completed ∨ r.status = WStatus.failed := by
  intro fuel
  induction fuel with
  | zero =>
    intro i r h
    simp only [pollAux] at h
    cases h
    exact Or.inl rfl
  | succ fuel ih =>
    intro i r h
    simp only [pollAux] at h
    by_cases hg : i * interval < timeout
    · rw [if_pos hg] at h
      cases hf : fetch i with
      | error e => rw [hf] at h; cases h
      | ok o =>
        rw [hf] at h
        cases o with
        | none => exact ih (i + 1) r h
        | some s =>
          dsimp only at h
          by_cases hcs : s.status = WStatus.completed
          · rw [if_pos hcs] at h
            cases h
            exact Or.inr (Or.inl hcs)
          · rw [if_neg hcs] at h
            by_cases hfs : s.status = WStatus.failed
            · rw [if_pos hfs] at h
              cases h
              exact Or.inr (Or.inr hfs)
            · rw [if_neg hfs] at h
              exact ih (i + 1) r h
    · rw [if_neg hg] at h
      cases h
      exact Or.inl rfl

/-- C5 (as amended): whatever a poll run returns normally, its result
carries status `in_progress` exactly when it is the timeout object (the
one holding the check URL); the timeout tag is therefore distinct from
`failed` and from `completed`, although it is not a dedicated
timed-out value. -/
theorem poll_timeout_tag_in_progress
    (fetch : Nat → Except String (Option WorkflowRunStatus))
    (interval timeout : Nat) (url : String) (r : WorkflowStatus)
    (h : pollWorkflowStatus fetch interval timeout url = Except.ok r) :
    (r.status = WStatus.in_progress ↔ r = timeoutResult url) ∧
      (timeoutResult url).status ≠ WStatus.failed ∧
      (timeoutResult url).status ≠ WStatus.completed := by
  have hshape := pollAux_ok_shape fetch interval timeout url (timeout + 1) 0 r h
  refine ⟨⟨?_, ?_⟩, by simp [timeoutResult], by simp [timeoutResult]⟩
  · intro hst
    rcases hshape with hto | hc | hf
    · exact hto
    · rw [hst] at hc; cases hc
    · rw [hst] at hf; cases hf
  · intro hto
    rw [hto]
    rfl

/-- Witness for C5 (amended): a fetch that never finds a run exhausts a
12 ms budget at a 5 ms interval and the theorem applies to the returned
timeout object. -/
theorem poll_timeout_tag_in_progress_witness :
    ((timeoutResult "u").status = WStatus.in_progress ↔ timeoutResult "u" = timeoutResult "u") ∧
      (timeoutResult "u").status ≠ WStatus.failed ∧
      (timeoutResult "u").status ≠ WStatus.completed :=
  poll_timeout_tag_in_progress (fun _ => Except.ok none) 5 12 "u" (timeoutResult "u") rfl

/-- C5 counterexample: the timed-out poll run is not "explicitly tagged as
timed out": its result reuses status `in_progress`, the very value
`getRunStatus` reports for a live, still-running run, so the tag is not a
dedicated timed-out marker (only distinctness from `failed` holds). -/
theorem poll_timeout_not_tagged_timed_out_cex :
    pollWorkflowStatus (fun _ => Except.ok none) 5 11 "cu" = Except.ok (timeoutResult "cu") ∧
      (timeoutResult "cu").status = WStatus.in_progress ∧
      getRunStatus "tok-1"
          [{ id := 7, name := "Render", event := "workflow_dispatch", created_at := 900000,
             status := WStatus.in_progress, conclusion := none, html_url := "hu" }] 1000000
        = some { id := 7, status := WStatus.in_progress, conclusion := none, url := "hu" } ∧
      (timeoutResult "cu").status
        = (WorkflowRunStatus.mk 7 WStatus.in_progress none "hu").status := by
  refine ⟨rfl, rfl, by decide, rfl⟩

lemma getRunStatus_first (wid : String) (now : Int) (pre : List RemoteRun)
    (r : RemoteRun) (post : List RemoteRun)
    (hpre : ∀ x ∈ pre, matchesRun wid now x = false)
    (hr : matchesRun wid now r = true) :
    getRunStatus wid (pre ++ r :: post) now = some (runSnapshot r) := by
  unfold getRunStatus
  induction pre with
  | nil =>
    rw [List.nil_append, List.find?_cons_of_pos post hr]
    rfl
  | cons a l ih =>
    have ha : matchesRun wid now a = false := hpre a (by simp)
    rw [List.cons_append, List.find?_cons_of_neg (l ++ r :: post) (by simp [ha])]
    exact ih (fun x hx => hpre x (by simp [hx]))

/-- C3 (as amended): `getRunStatus` returns the snapshot of the FIRST run
in list order that satisfies the match predicate (token containment, or
`workflow_dispatch` created within the last 300000 ms); among several
in-window candidates, list position, not proximity to the dispatch time,
decides. -/
theorem correlator_returns_first_match (wid : String) (now : Int) (pre : List RemoteRun)
    (r : RemoteRun) (post : List RemoteRun)
    (hpre : ∀ x ∈ pre, matchesRun wid now x = false)
    (hr : matchesRun wid now r = true) :
    getRunStatus wid (pre ++ r :: post) now = some (runSnapshot r) :=
  getRunStatus_first wid now pre r post hpre hr

/-- Witness for C3 (amended): with a non-matching run ahead of a matching
one, the matching run's snapshot is returned. -/
theorem correlator_returns_first_match_witness :
    getRunStatus "clipper-1-aa"
        ([{ id := 3, name := "docs build", event := "push", created_at := 100,
            status := WStatus.queued, conclusion := none, html_url := "u3" }] ++
          { id := 4, name := "run clipper-1-aa", event := "workflow_dispatch",
            created_at := 999000, status := WStatus.in_progress, conclusion := none,
            html_url := "u4" } :: []) 1000000
      = some (runSnapshot
          { id := 4, name := "run clipper-1-aa", event := "workflow_dispatch",
            created_at := 999000, status := WStatus.in_progress, conclusion := none,
            html_url := "u4" }) := by
  exact correlator_returns_first_match "clipper-1-aa" 1000000
    [{ id := 3, name := "docs build", event := "push", created_at := 100,
       status := WStatus.queued, conclusion := none, html_url := "u3" }]
    { id := 4, name := "run clipper-1-aa", event := "workflow_dispatch",
      created_at := 999000, status := WStatus.in_progress, conclusion := none,
      html_url := "u4" } [] (by decide) (by decide)

/-- C3 counterexample: two token-free `workflow_dispatch` runs are inside
the tolerance window; the second (`id 2`, created 999000) is far closer to
the dispatch time 1000000 than the first (`id 1`, created 800000), yet the
first is returned — selection is by list order, not by closest creation
timestamp. -/
theorem correlator_not_closest_cex :
    getRunStatus "clipper-123-abc"
        [{ id := 1, name := "Build pipeline", event := "workflow_dispatch",
           created_at := 800000, status := WStatus.in_progress, conclusion := none,
           html_url := "u1" },
         { id := 2, name := "Render pipeline", event := "workflow_dispatch",
           created_at := 999000, status := WStatus.in_progress, conclusion := none,
           html_url := "u2" }] 1000000
      = some (WorkflowRunStatus.mk 1 WStatus.in_progress none "u1") ∧
      ((1000000 : Int) - 999000 < 1000000 - 800000) ∧
      some (WorkflowRunStatus.mk 1 WStatus.in_progress none "u1")
        ≠ some (WorkflowRunStatus.mk 2 WStatus.in_progress none "u2") := by
  refine ⟨by decide, by decide, by decide⟩

/-- C8 (as amended): `getRunStatus` returns `none` (not an error) when no
listed run matches the token and none satisfies the timestamp fallback;
and when a run contains the token and no EARLIER candidate satisfies the
match predicate (token or fallback), that run's snapshot is returned. -/
theorem correlator_none_and_unique_token (wid : String) (now : Int) :
    (∀ runs : List RemoteRun, (∀ x ∈ runs, matchesRun wid now x = false) →
        getRunStatus wid runs now = none) ∧
      (∀ (pre : List RemoteRun) (r : RemoteRun) (post : List RemoteRun),
        (∀ x ∈ pre, matchesRun wid now x = false) →
        strContains r.name wid = true →
        getRunStatus wid (pre ++ r :: post) now = some (runSnapshot r)) := by
  constructor
  · intro runs hnone
    unfold getRunStatus
    rw [List.find?_eq_none.mpr (fun x hx => by simp [hnone x hx])]
    rfl
  · intro pre r post hpre htok
    exact getRunStatus_first wid now pre r post hpre (by simp [matchesRun, htok])

/-- Witness for C8 (amended): an old push-event run without the token
yields `none`; a list whose sole token-bearing run is preceded only by
that non-matching run yields the token run's snapshot. -/
theorem correlator_none_and_unique_token_witness :
    getRunStatus "clipper-42-zz"
        [{ id := 8, name := "nightly docs", event := "push", created_at := 100,
           status := WStatus.completed, conclusion := some WConclusion.success,
           html_url := "u8" }] 1000000 = none ∧
      getRunStatus "clipper-42-zz"
        ([{ id := 8, name := "nightly docs", event := "push", created_at := 100,
            status := WStatus.completed, conclusion := some WConclusion.success,
            html_url := "u8" }] ++
          { id := 9, name := "clip clipper-42-zz", event := "workflow_dispatch",
            created_at := 999500, status := WStatus.queued, conclusion := none,
            html_url := "u9" } :: []) 1000000
        = some (runSnapshot
            { id := 9, name := "clip clipper-42-zz", event := "workflow_dispatch",
              created_at := 999500, status := WStatus.queued, conclusion := none,
              html_url := "u9" }) := by
  have h := correlator_none_and_unique_token "clipper-42-zz" 1000000
  refine ⟨h.1 _ (by decide), h.2 _ _ _ (by decide) (by decide)⟩

/-- C8 counterexample: exactly one run in the list contains the token
(`id 11`), but an earlier token-free run satisfies the timestamp fallback
(`workflow_dispatch`, created within 300000 ms), and that earlier run is
returned instead of the token match. -/
theorem correlator_token_shadowed_cex :
    getRunStatus "clipper-777-xyz"
        [{ id := 10, name := "Render video", event := "workflow_dispatch",
           created_at := 999500, status := WStatus.in_progress, conclusion := none,
           html_url := "ua" },
         { id := 11, name := "job clipper-777-xyz", event := "workflow_dispatch",
           created_at := 999600, status := WStatus.in_progress, conclusion := none,
           html_url := "ub" }] 1000000
      = some { id := 10, status := WStatus.in_progress, conclusion := none, url := "ua" } ∧
      strContains "Render video" "clipper-777-xyz" = false ∧
      strContains "job clipper-777-xyz" "clipper-777-xyz" = true ∧
      (10 : Nat) ≠ 11 := by
  refine ⟨by decide, by decide, by decide, by decide⟩

/-- C2 (code bug): when the poller reports `completed` with
`conclusion = failure`, `ClipperService.process` still takes the success
path: it returns a success outcome and invokes `sendVideo` (with the
absent `downloadUrl`), because the code branches only on
`status === 'completed'` and never reads `conclusion`. -/
theorem process_completed_failure_takes_success_path :
    process
        { trigger := Except.ok (),
          pollResult := Except.ok
            { id := some 5, status := WStatus.completed,
              conclusion := some WConclusion.failure, url := some "runurl",
              downloadUrl := none, checkUrl := none, error := none },
          telegramConfigured := true,
          sendVideoOutcome := Except.ok (),
          sendErrorOutcome := Except.ok () }
        true "w77"
      = (Except.ok (), [TgCall.sendVideo none "w77"]) := rfl

/-- C9 (as amended): whenever the `try` block of `process` throws, a
failure notification is attempted exactly when Telegram is configured;
if the notification returns normally (or Telegram is unconfigured) the
original error propagates, but if the notification itself throws, the
notification's error propagates in place of the original. -/
theorem process_error_notification (env : ProcessEnv) (watch : Bool) (wid : String)
    (e : String) (calls : List TgCall)
    (h : processTry env watch wid = Except.error (e, calls)) :
    process env watch wid =
      (if env.telegramConfigured then
        ((match env.sendErrorOutcome with
          | Except.ok _ => Except.error e
          | Except.error e2 => Except.error e2),
          calls ++ [TgCall.sendError wid e])
      else (Except.error e, calls)) := by
  unfold process
  rw [h]
  cases htc : env.telegramConfigured <;>
    cases hso : env.sendErrorOutcome <;> simp [htc, hso]

/-- Witness for C9 (amended): a failed dispatch with a working Telegram
notification propagates the original dispatch error after the
notification call. -/
theorem process_error_notification_witness :
    process
        { trigger := Except.error "boom",
          pollResult := Except.ok (timeoutResult "u"),
          telegramConfigured := true,
          sendVideoOutcome := Except.ok (),
          sendErrorOutcome := Except.ok () }
        true "w1"
      = (Except.error "boom", [TgCall.sendError "w1" "boom"]) := by
  have h := process_error_notification
    { trigger := Except.error "boom",
      pollResult := Except.ok (timeoutResult "u"),
      telegramConfigured := true,
      sendVideoOutcome := Except.ok (),
      sendErrorOutcome := Except.ok () }
    true "w1" "boom" [] rfl
  simpa using h

/-- C9 counterexample: the dispatch throws `dispatch refused`; the
best-effort notification itself throws `telegram unreachable`, and it is
the notification's error, not the original one, that `process`
propagates. -/
theorem notification_error_replaces_original_cex :
    process
        { trigger := Except.error "dispatch refused",
          pollResult := Except.ok (timeoutResult "u"),
          telegramConfigured := true,
          sendVideoOutcome := Except.ok (),
          sendErrorOutcome := Except.error "telegram unreachable" }
        true "w9"
      = (Except.error "telegram unreachable",
          [TgCall.sendError "w9" "dispatch refused"]) ∧
      "telegram unreachable" ≠ "dispatch refused" :=
  ⟨rfl, by decide⟩

